import Mathlib

/-!
Shallow embedding of the HLS_Monitor monitor engine (backend/workers):
the health / video / audio scoring arithmetic, the error-decay factor,
the sliding-window classifier, the playlist evaluator's staleness and
media-sequence checks, the fps parsing in the probe worker, the bounded
ffmpeg queue, and the save/version-conflict control flow of checkStream.
Each definition is transcribed from the JavaScript source; where a claim
is a refinement statement a second definition written from the spec's
words is introduced alongside and compared against the code-derived one.
-/

namespace HLSMonitor

/-- Clamp a rational to the interval [lo, hi]: `Math.max lo (Math.min hi x)`. -/
def clampQ (lo hi x : ℚ) : ℚ := max lo (min hi x)

/-- Clamp an integer to the interval [lo, hi]: `Math.max lo (Math.min hi x)`. -/
def clampZ (lo hi x : ℤ) : ℤ := max lo (min hi x)

/-!
## Error decay factor (`getErrorDecayFactor`, monitor lines 15-42)

The JavaScript function receives `lastErrorTime` (a date value or a
falsy absence), parses it, computes `hoursSinceError` and walks the
forgiveness table.  The possible shapes of the input after the date
arithmetic are captured by `ErrorAge`:
  * `absent`      — `!lastErrorTime` (never an error recorded);
  * `unparseable` — `isNaN(errorDate.getTime())`;
  * `nonFinite`   — `!isFinite(hoursSinceError)`;
  * `elapsed h`   — a finite `hoursSinceError = h` (possibly negative).
-/

inductive ErrorAge where
  | absent : ErrorAge
  | unparseable : ErrorAge
  | nonFinite : ErrorAge
  | elapsed (hoursSinceError : ℚ) : ErrorAge
deriving DecidableEq, Repr

/-- Transcription of `getErrorDecayFactor` from the source: absence gives full
forgiveness 1.0; parse failures, non-finite and negative elapsed times give
0; otherwise the progressive forgiveness table applies. -/
def getErrorDecayFactor : ErrorAge → ℚ
  | ErrorAge.absent => 1
  | ErrorAge.unparseable => 0
  | ErrorAge.nonFinite => 0
  | ErrorAge.elapsed h =>
      if h < 0 then 0
      else if h < 1 then 0
      else if h < 6 then 1/4
      else if h < 24 then 1/2
      else if h < 72 then 3/4
      else 9/10

/-- The decay table exactly as the spec sentence of claim C5 words it:
1.0 when no error ever, 0.0 under 1 hour, 0.25 on [1,6), 0.5 on [6,24),
0.75 on [24,72), 0.9 from 72 hours on, and 0.0 for every invalid input
(unparseable date, negative elapsed time, non-finite elapsed time). -/
def decayFactorSpec : ErrorAge → ℚ
  | ErrorAge.absent => 1
  | ErrorAge.unparseable => 0
  | ErrorAge.nonFinite => 0
  | ErrorAge.elapsed h =>
      if h < 0 then 0
      else if h < 1 then 0
      else if 1 ≤ h ∧ h < 6 then 1/4
      else if 6 ≤ h ∧ h < 24 then 1/2
      else if 24 ≤ h ∧ h < 72 then 3/4
      else 9/10

/-!
## Health scoring (`calculateHealthScore`, monitor lines 92-119)
-/

/-- The sliding-window counts `{jumps, resets, errors}`. -/
structure Recent where
  jumps : ℕ
  resets : ℕ
  errors : ℕ
deriving DecidableEq, Repr

/-- The health sub-document fields that the scorers read.  `stream.health ||
{}` in the source means an absent block behaves as all-defaults, which the
callers of this structure encode with `Option HealthBlock`. -/
structure HealthBlock where
  isStale : Bool
  sequenceJumps : ℕ
  sequenceResets : ℕ
  totalErrors : ℕ
deriving DecidableEq, Repr

/-- The slice of a stream record the scorers inspect. -/
structure ScoredStream where
  status : String
  health : Option HealthBlock
deriving DecidableEq, Repr

/-- Reading `stream.health || {}`: an absent health block reads as defaults
(`isStale` undefined hence falsy, counters undefined hence not `> 0`). -/
def healthOrEmpty (s : ScoredStream) : HealthBlock :=
  s.health.getD ⟨false, 0, 0, 0⟩

/-- Transcription of `calculateHealthScore(stream, recentIssues = null,
decayFactor = 0)` from the source: status penalties, then either the
sliding-window penalties each scaled by `1 - decayFactor`, or the
all-time fallback guarded by `> 0` checks, then clamp to [0, 100]. -/
def calculateHealthScore (s : ScoredStream) (recentIssues : Option Recent)
    (decayFactor : ℚ) : ℚ :=
  let health := healthOrEmpty s
  let score : ℚ := 100
  let score := if health.isStale then score - 30 else score
  let score := if s.status = "error" then score - 40 else score
  let score := if s.status = "offline" then score - 50 else score
  let score :=
    match recentIssues with
    | some r =>
        let effectiveDecay := 1 - decayFactor
        let jumpPenalty := min ((r.jumps : ℚ) * 5) 20 * effectiveDecay
        let resetPenalty := min ((r.resets : ℚ) * 10) 30 * effectiveDecay
        let errorPenalty := min ((r.errors : ℚ) * 2) 20 * effectiveDecay
        score - (jumpPenalty + resetPenalty + errorPenalty)
    | none =>
        let score := if health.sequenceJumps > 0 then
          score - min ((health.sequenceJumps : ℚ) * 5) 20 else score
        let score := if health.sequenceResets > 0 then
          score - min ((health.sequenceResets : ℚ) * 10) 30 else score
        if health.totalErrors > 0 then
          score - min ((health.totalErrors : ℚ) * 2) 20 else score
  clampQ 0 100 score

/-- The health score exactly as claim C1 words it: start at 100, subtract
the three additive status penalties, then subtract the grouped windowed
penalty `(min(j*5,20) + min(r*10,30) + min(e*2,20)) * (1 - d)` — or, with
no window supplied, the all-time penalties with the same caps and no decay
multiplier — and clamp to [0, 100]. -/
def healthScoreSpec (s : ScoredStream) (recentIssues : Option Recent)
    (decayFactor : ℚ) : ℚ :=
  let health := healthOrEmpty s
  let base : ℚ := 100
    - (if health.isStale then 30 else 0)
    - (if s.status = "error" then 40 else 0)
    - (if s.status = "offline" then 50 else 0)
  let result :=
    match recentIssues with
    | some r =>
        base - (min ((r.jumps : ℚ) * 5) 20 + min ((r.resets : ℚ) * 10) 30
          + min ((r.errors : ℚ) * 2) 20) * (1 - decayFactor)
    | none =>
        base - (min ((health.sequenceJumps : ℚ) * 5) 20
          + min ((health.sequenceResets : ℚ) * 10) 30
          + min ((health.totalErrors : ℚ) * 2) 20)
  clampQ 0 100 result

/-!
## Audio scoring (`calculateAudioScore`, monitor lines 132-141)
-/

/-- The audio stats sub-document fields the audio scorer reads.  `codec`
and `sampleRate` are optional because the probe may leave them unset; a
present `sampleRate` of 0 is the probe's default when ffprobe reports no
sample rate (`parseInt(audio.sample_rate) || 0`, processor line 108). -/
structure AudioStats where
  codec : Option String
  sampleRate : Option ℤ
  isSilent : Bool
deriving DecidableEq, Repr

/-- JavaScript truthiness of an optional string: `undefined` and `""` are
falsy. -/
def strTruthy : Option String → Bool
  | none => false
  | some s => s ≠ ""

/-- JavaScript truthiness of an optional number: `undefined` and `0` are
falsy. -/
def numTruthy : Option ℤ → Bool
  | none => false
  | some n => n ≠ 0

/-- Transcription of `calculateAudioScore` from the source.  Note the guard
`audio.sampleRate && audio.sampleRate < 44100`: the penalty fires only for
a truthy (present and nonzero) sample rate. -/
def calculateAudioScore (audio : Option AudioStats) : ℤ :=
  match audio with
  | none => 50
  | some a =>
      let score : ℤ := 100
      let score := if strTruthy a.codec then score else score - 20
      let score :=
        if numTruthy a.sampleRate ∧ a.sampleRate.getD 0 < 44100 then score - 10
        else score
      let score := if a.isSilent then score - 15 else score
      clampZ 0 100 score

/-- The audio score exactly as claim C7 words it: absent stats give 50,
absent codec subtracts 20, `sampleRate < 44100` subtracts 10 (so in
particular a recorded sample rate of 0 is penalized), `isSilent` subtracts
15, clamp to [0, 100]. -/
def audioScoreSpec (audio : Option AudioStats) : ℤ :=
  match audio with
  | none => 50
  | some a =>
      let score : ℤ := 100
      let score := if strTruthy a.codec then score else score - 20
      let score := if a.sampleRate.getD 0 < 44100 then score - 10 else score
      let score := if a.isSilent then score - 15 else score
      clampZ 0 100 score

/-- The audio score as claim C7 must be amended: the 10-point penalty fires
exactly when a sample rate is present, nonzero and below 44100, so the
probe's default of 0 incurs no penalty. -/
def audioScoreAmendedSpec (audio : Option AudioStats) : ℤ :=
  match audio with
  | none => 50
  | some a =>
      let score : ℤ := 100
      let score := if strTruthy a.codec then score else score - 20
      let score :=
        match a.sampleRate with
        | some v => if v ≠ 0 ∧ v < 44100 then score - 10 else score
        | none => score
      let score := if a.isSilent then score - 15 else score
      clampZ 0 100 score

/-!
## Error ledger entries (`addError`, monitor lines 148-166)

Only the fields the verified claims inspect are carried: the entry date
(in unix ms; `none` stands for an absent or unparseable date), the
`errorType` string, and the optional `details` string.  `addError` always
stamps `date = now`, the given type and details, and bumps `totalErrors`.
-/

structure LedgerEntry where
  date : Option ℤ
  errorType : String
  details : Option String
deriving DecidableEq, Repr

/-- Detail text of a sequence-jump entry (monitor line 300). -/
def jumpDetails (last seq : ℤ) : String :=
  "Sequence jumped from " ++ toString last ++ " to " ++ toString seq
    ++ " (gap: " ++ toString (seq - (last + 1)) ++ ")"

/-- Detail text of a sequence-reset entry (monitor line 308). -/
def resetDetails (last seq : ℤ) : String :=
  "Sequence reset from " ++ toString last ++ " to " ++ toString seq

/-- Detail text of a stale-manifest entry (monitor line 278). -/
def staleDetails (elapsedMs : ℤ) : String :=
  "Playlist stale for " ++ toString elapsedMs ++ "ms"

/-- A Media-Sequence ledger entry stamped at `now` (`ErrorTypes.MEDIA_SEQUENCE
= 'Media Sequence'`). -/
def mediaSequenceError (now : ℤ) (details : String) : LedgerEntry :=
  ⟨some now, "Media Sequence", some details⟩

/-- A Stale-Manifest ledger entry stamped at `now` (`ErrorTypes.STALE_MANIFEST
= 'Stale Manifest'`). -/
def staleManifestError (now : ℤ) (details : String) : LedgerEntry :=
  ⟨some now, "Stale Manifest", some details⟩

/-!
## Sequence checks (`checkStream`, monitor lines 290-310)
-/

/-- The stream fields the sequence-check block reads and writes. -/
structure SeqResult where
  sequenceJumps : ℕ
  sequenceResets : ℕ
  totalErrors : ℕ
  streamErrors : List LedgerEntry
deriving DecidableEq, Repr

/-- The jump arm of the sequence checks, transcribed from the source with
`expected = last + 1` inlined: `currentSequence > expectedSequence` with
`gap = currentSequence - expectedSequence ≥ 3` increments `sequenceJumps`
and appends the jump entry. -/
def seqJumpCheck (now last seq : ℤ) (r : SeqResult) : SeqResult :=
  if seq > last + 1 ∧ seq - (last + 1) ≥ 3 then
    { r with
      sequenceJumps := r.sequenceJumps + 1
      totalErrors := r.totalErrors + 1
      streamErrors := r.streamErrors
        ++ [mediaSequenceError now (jumpDetails last seq)] }
  else r

/-- The reset arm of the sequence checks, transcribed from the source:
`currentSequence < state.lastMediaSequence` increments `sequenceResets`
and appends the reset entry. -/
def seqResetCheck (now last seq : ℤ) (r : SeqResult) : SeqResult :=
  if seq < last then
    { r with
      sequenceResets := r.sequenceResets + 1
      totalErrors := r.totalErrors + 1
      streamErrors := r.streamErrors
        ++ [mediaSequenceError now (resetDetails last seq)] }
  else r

/-- The `--- SEQUENCE CHECKS ---` block of `checkStream`, transcribed from
the source: both arms run (in order) only when a sequence has been cached
(`state.lastMediaSequence !== -1`). -/
def sequenceChecks (now last seq : ℤ) (r : SeqResult) : SeqResult :=
  if last ≠ -1 then seqResetCheck now last seq (seqJumpCheck now last seq r)
  else r

/-!
## Staleness check (`checkStream`, monitor lines 270-287)
-/

/-- The stream fields the staleness block reads and writes, together with
the in-memory `consecutiveStales` counter of the poll state. -/
structure StaleState where
  consecutiveStales : ℕ
  isStale : Bool
  timeSinceLastUpdate : ℤ
  staleThreshold : ℤ
  lastManifestUpdate : Option ℤ
  status : String
  totalErrors : ℕ
  streamErrors : List LedgerEntry
deriving DecidableEq, Repr

/-- First half of the unchanged-sequence branch, transcribed from the
source: `state.consecutiveStales++` and `stream.health.timeSinceLastUpdate
= now - state.lastPollTime`. -/
def staleTouch (now lastPollTime : ℤ) (st : StaleState) : StaleState :=
  { st with
    consecutiveStales := st.consecutiveStales + 1
    timeSinceLastUpdate := now - lastPollTime }

/-- Second half of the unchanged-sequence branch, transcribed from the
source: past the threshold, mark stale and append a Stale-Manifest entry
carrying `timeSinceLastUpdate`. -/
def staleMark (now : ℤ) (st : StaleState) : StaleState :=
  if st.timeSinceLastUpdate > st.staleThreshold then
    { st with
      isStale := true
      status := "stale"
      totalErrors := st.totalErrors + 1
      streamErrors := st.streamErrors
        ++ [staleManifestError now (staleDetails st.timeSinceLastUpdate)] }
  else st

/-- The `--- STALENESS CHECK ---` block of `checkStream`, transcribed from
the source: an unchanged sequence bumps `consecutiveStales`, recomputes
`timeSinceLastUpdate` from the cached poll time, and past the threshold
marks the stream stale and appends a Stale-Manifest entry; a changed
sequence resets the freshness fields and sets the status online. -/
def stalenessCheck (now lastPollTime last seq : ℤ) (st : StaleState) :
    StaleState :=
  if seq = last then staleMark now (staleTouch now lastPollTime st)
  else
    { st with
      isStale := false
      lastManifestUpdate := some now
      timeSinceLastUpdate := 0
      consecutiveStales := 0
      status := "online" }

/-!
## Substring search (JavaScript `String.prototype.includes`)
-/

/-- Predicate `leadsWith hs nd`: true when the character list `nd` occurs at the
head of `hs`. -/
def leadsWith : List Char → List Char → Bool
  | _, [] => true
  | [], _ :: _ => false
  | a :: as, b :: bs => a = b && leadsWith as bs

/-- Predicate `containsSub hs nd`: true when `nd` occurs contiguously
anywhere in `hs` — the semantics of JavaScript `hs.includes(nd)`. -/
def containsSub : List Char → List Char → Bool
  | [], needle => needle.isEmpty
  | c :: t, needle => leadsWith (c :: t) needle || containsSub t needle

/-- JavaScript `s.includes(sub)` on strings. -/
def strIncludes (s sub : String) : Bool := containsSub s.toList sub.toList

/-!
## Sliding-window metrics (`calculateSlidingWindowMetrics`, monitor
lines 46-89)

The asynchronous lookup `Stream.findById(streamId).select('streamErrors')`
can end in several ways which the function folds into its early returns;
`StreamFetch` enumerates them.
-/

inductive StreamFetch where
  | noId : StreamFetch
  | lookupError : StreamFetch
  | notFound : StreamFetch
  | noErrors : StreamFetch
  | found (streamErrors : List LedgerEntry) : StreamFetch
deriving DecidableEq, Repr

/-- The jump condition of the window classifier, transcribed from the
source: `err.errorType === 'SEQUENCE_JUMP' || (err.details &&
err.details.includes('Sequence jumped'))`. -/
def windowJumpCond (e : LedgerEntry) : Bool :=
  e.errorType = "SEQUENCE_JUMP"
    || (strTruthy e.details && strIncludes (e.details.getD "") "Sequence jumped")

/-- The reset condition of the window classifier, transcribed from the
source: `err.errorType === 'SEQUENCE_RESET' || (err.details &&
err.details.includes('reset'))`. -/
def windowResetCond (e : LedgerEntry) : Bool :=
  e.errorType = "SEQUENCE_RESET"
    || (strTruthy e.details && strIncludes (e.details.getD "") "reset")

/-- The window filter, transcribed from the source: drop entries without a
date (`!err.date`, which also covers unparseable dates, since
`new Date(bad) >= windowStart` compares through `NaN` to false) and keep
those with `date ≥ now − 12 min`. -/
def inWindow (now : ℤ) (e : LedgerEntry) : Bool :=
  match e.date with
  | none => false
  | some d => now - 12 * 60 * 1000 ≤ d

/-- The body of the counting loop (`recentErrors.forEach`), transcribed
from the source: `errors++` unconditionally, then the jump and reset
conditions each bump their counter. -/
def windowStep (acc : Recent) (e : LedgerEntry) : Recent :=
  let acc := { acc with errors := acc.errors + 1 }
  let acc := if windowJumpCond e then
    { acc with jumps := acc.jumps + 1 } else acc
  if windowResetCond e then { acc with resets := acc.resets + 1 } else acc

/-- Transcription of `calculateSlidingWindowMetrics` from the source: every
failed lookup shape returns the zero default; a successful lookup filters
the ledger to the 12-minute window and folds the three counters over it in
order. -/
def calculateSlidingWindowMetrics (now : ℤ) : StreamFetch → Recent
  | StreamFetch.found errs =>
      let recentErrors := errs.filter (inWindow now)
      recentErrors.foldl windowStep ⟨0, 0, 0⟩
  | _ => ⟨0, 0, 0⟩

/-- Whether an entry's `details` string contains the given substring, the
way claim C6 words the classifier conditions. -/
def detailsContain (e : LedgerEntry) (needle : String) : Bool :=
  match e.details with
  | some s => strIncludes s needle
  | none => false

/-- The window metrics exactly as claim C6 words them: keep the entries
with a parseable date at most 12 minutes old, let `errors` be their count,
`jumps` the count of those with `errorType = "SEQUENCE_JUMP"` or details
containing "Sequence jumped", `resets` the count of those with `errorType
= "SEQUENCE_RESET"` or details containing "reset"; zeros on any failed
lookup. -/
def slidingWindowSpec (now : ℤ) : StreamFetch → Recent
  | StreamFetch.found errs =>
      let windowed := errs.filter (inWindow now)
      { jumps := windowed.countP (fun e =>
          e.errorType = "SEQUENCE_JUMP" || detailsContain e "Sequence jumped")
        resets := windowed.countP (fun e =>
          e.errorType = "SEQUENCE_RESET" || detailsContain e "reset")
        errors := windowed.length }
  | _ => ⟨0, 0, 0⟩

/-!
## fps parsing (`processSegment`, processor lines 77-86)

JavaScript numbers reached by this fragment are NaN, ±Infinity or a
finite value; `JNum` captures them (finite values as exact rationals,
which is faithful here because the parsed inputs and the single division
stay exact).
-/

inductive JNum where
  | nan : JNum
  | posInf : JNum
  | negInf : JNum
  | fin (q : ℚ) : JNum
deriving DecidableEq, Repr

/-- JavaScript division on `JNum`: NaN is absorbing, `x/0` follows the
IEEE sign rules (`0/0 = NaN`, `30/0 = Infinity`), a finite value over an
infinity is 0. -/
def jdiv : JNum → JNum → JNum
  | JNum.nan, _ => JNum.nan
  | _, JNum.nan => JNum.nan
  | JNum.posInf, JNum.posInf => JNum.nan
  | JNum.posInf, JNum.negInf => JNum.nan
  | JNum.negInf, JNum.posInf => JNum.nan
  | JNum.negInf, JNum.negInf => JNum.nan
  | JNum.posInf, JNum.fin b => if 0 ≤ b then JNum.posInf else JNum.negInf
  | JNum.negInf, JNum.fin b => if 0 ≤ b then JNum.negInf else JNum.posInf
  | JNum.fin _, JNum.posInf => JNum.fin 0
  | JNum.fin _, JNum.negInf => JNum.fin 0
  | JNum.fin a, JNum.fin b =>
      if b = 0 then
        if a = 0 then JNum.nan
        else if 0 < a then JNum.posInf
        else JNum.negInf
      else JNum.fin (a / b)

/-- JavaScript truthiness of a number: NaN and 0 are falsy, everything
else (both infinities included) is truthy. -/
def jnumTruthy : JNum → Bool
  | JNum.nan => false
  | JNum.fin q => q ≠ 0
  | _ => true

/-- JavaScript `x || 0` on a number: keep `x` when truthy, else 0. -/
def jsOrZero (x : JNum) : JNum := if jnumTruthy x then x else JNum.fin 0

/-- Numeric value of a digit list read in base 10. -/
def natOfDigits (ds : List Char) : ℕ :=
  ds.foldl (fun a c => 10 * a + (c.toNat - 48)) 0

/-- JavaScript `parseFloat` on the sign/decimal fragment of its grammar
(leading spaces, optional sign, digits, optional fraction, trailing junk
ignored; NaN when no leading number) — the fragment `r_frame_rate`
ratios live in; exponent and Infinity literals are not modelled. -/
def parseFloatJs (cs : List Char) : JNum :=
  let cs := cs.dropWhile (fun c => c = ' ')
  let signed : Bool × List Char :=
    match cs with
    | '-' :: t => (true, t)
    | '+' :: t => (false, t)
    | _ => (false, cs)
  let neg := signed.1
  let body := signed.2
  let intPart := body.takeWhile Char.isDigit
  let rest := body.dropWhile Char.isDigit
  let fracPart :=
    match rest with
    | '.' :: t => t.takeWhile Char.isDigit
    | _ => []
  if intPart.isEmpty && fracPart.isEmpty then JNum.nan
  else
    let q : ℚ := (natOfDigits intPart : ℚ)
      + (natOfDigits fracPart : ℚ) / ((10 : ℚ) ^ fracPart.length)
    JNum.fin (if neg then -q else q)

/-- JavaScript `split('/')` on a character list. -/
def splitSlash : List Char → List (List Char)
  | [] => [[]]
  | c :: t =>
      if c = '/' then [] :: splitSlash t
      else
        match splitSlash t with
        | [] => [[c]]
        | h :: r => (c :: h) :: r

/-- The fps assignment of the probe worker, transcribed from the source:
`fps` starts at 0 and is only reassigned for a truthy `r_frame_rate`; a
two-part split parses as `parseFloat(p0) / parseFloat(p1) || 0`, any
other split as `parseFloat(r) || 0`. -/
def parseFps (rFrameRate : Option String) : JNum :=
  match rFrameRate with
  | none => JNum.fin 0
  | some r =>
      if r = "" then JNum.fin 0
      else
        match splitSlash r.toList with
        | [p0, p1] => jsOrZero (jdiv (parseFloatJs p0) (parseFloatJs p1))
        | _ => jsOrZero (parseFloatJs r.toList)

/-!
## Bounded ffmpeg queue (`runLimited`, processor lines 9-36)

The queue is modelled as a labelled transition system over the counter
`activeProcesses` and the FIFO `processQueue` (task identifiers).  The
transitions transcribe the source: a submission with a free slot
(`activeProcesses < MAX_CONCURRENT_FFMPEG = 4`) executes at once, an
over-limit submission is appended FIFO; a finishing task — success and
error alike, errors being swallowed by `.catch(() => {})` — decrements
the counter and, when the queue is non-empty, shifts its head and starts
it (incrementing the counter back).
-/

structure QueueState where
  active : ℕ
  pending : List ℕ
deriving DecidableEq, Repr

inductive QStep : QueueState → QueueState → Prop where
  | submitRun (s : QueueState) (t : ℕ) (h : s.active < 4) :
      QStep s ⟨s.active + 1, s.pending⟩
  | submitQueue (s : QueueState) (t : ℕ) (h : ¬ s.active < 4) :
      QStep s ⟨s.active, s.pending ++ [t]⟩
  | finishIdle (s : QueueState) (h : 0 < s.active) (hq : s.pending = []) :
      QStep s ⟨s.active - 1, []⟩
  | finishShift (s : QueueState) (t : ℕ) (ts : List ℕ) (h : 0 < s.active)
      (hq : s.pending = t :: ts) :
      QStep s ⟨s.active - 1 + 1, ts⟩

/-- States reachable from the start of the process
(`activeProcesses = 0`, empty queue). -/
inductive QReach : QueueState → Prop where
  | init : QReach ⟨0, []⟩
  | step {s s' : QueueState} : QReach s → QStep s s' → QReach s'

/-!
## Save/conflict control flow of `checkStream` (monitor lines 325-408)
-/

inductive SaveOutcome where
  | ok : SaveOutcome
  | versionConflict : SaveOutcome
  | otherFailure : SaveOutcome
deriving DecidableEq, Repr

/-- The externally observable effects of the tail of a poll that has
completed the playlist evaluation. -/
structure PollTailEffects where
  pollStateAdvanced : Bool
  analysisDispatched : Bool
  metricsSampleAttempted : Bool
  recentMetricsUpdated : Bool
  updateEmitted : Bool
deriving DecidableEq, Repr

/-- The tail of `checkStream` after the playlist evaluation, transcribed
from the source: the in-memory poll state is written and `processSegment`
dispatched before the first `stream.save()`; a `VersionError` there
returns at once, any other save failure is rethrown into the outer catch
(which emits unless its own save also hits a `VersionError`,
`errorPathSave`); on a successful first save the recent-window fields are
updated, the metrics-history write is attempted (its failure caught
locally), the second save is attempted (failures caught locally), and
`stream:update` is emitted. -/
def checkStreamTail (firstSave errorPathSave : SaveOutcome) :
    PollTailEffects :=
  let eff : PollTailEffects := ⟨true, true, false, false, false⟩
  match firstSave with
  | SaveOutcome.versionConflict => eff
  | SaveOutcome.otherFailure =>
      if errorPathSave = SaveOutcome.versionConflict then eff
      else { eff with updateEmitted := true }
  | SaveOutcome.ok =>
      let eff := { eff with recentMetricsUpdated := true }
      let eff := { eff with metricsSampleAttempted := true }
      { eff with updateEmitted := true }

/-!
## Shared clamp lemmas
-/

theorem clampQ_nonneg (x : ℚ) : 0 ≤ clampQ 0 100 x := le_max_left 0 _

theorem clampQ_le_hundred (x : ℚ) : clampQ 0 100 x ≤ 100 :=
  max_le (by norm_num) (min_le_left _ _)

theorem clampZ_nonneg (x : ℤ) : 0 ≤ clampZ 0 100 x := le_max_left 0 _

theorem clampZ_le_hundred (x : ℤ) : clampZ 0 100 x ≤ 100 :=
  max_le (by norm_num) (min_le_left _ _)

/-- C1: the health score starts at 100, subtracts the additive status
penalties (30 stale, 40 error, 50 offline), then — when recent-issue
counts are supplied — the grouped windowed penalty
`(min(j*5,20) + min(r*10,30) + min(e*2,20)) * (1 - d)`, and otherwise the
all-time counters with the same caps and no decay multiplier, and the
result is clamped to (and hence always lies in) [0, 100]. -/
theorem fallback_guard (n : ℕ) (k cap x : ℚ) (hcap : 0 ≤ cap) :
    (if 0 < n then x - min ((n : ℚ) * k) cap else x)
      = x - min ((n : ℚ) * k) cap := by
  rcases Nat.eq_zero_or_pos n with h | h
  · subst h
    simp [min_eq_left hcap]
  · rw [if_pos h]

theorem calculateHealthScore_matches_spec_and_bounded (s : ScoredStream)
    (recentIssues : Option Recent) (decayFactor : ℚ) :
    calculateHealthScore s recentIssues decayFactor
        = healthScoreSpec s recentIssues decayFactor
      ∧ 0 ≤ calculateHealthScore s recentIssues decayFactor
      ∧ calculateHealthScore s recentIssues decayFactor ≤ 100 := by
  refine ⟨?_, ?_, ?_⟩
  · cases recentIssues with
    | some r =>
        simp only [calculateHealthScore, healthScoreSpec]
        congr 1
        split_ifs <;> ring
    | none =>
        simp only [calculateHealthScore, healthScoreSpec]
        congr 1
        rw [fallback_guard _ _ _ _ (by norm_num),
          fallback_guard _ _ _ _ (by norm_num),
          fallback_guard _ _ _ _ (by norm_num)]
        split_ifs <;> ring
  · cases recentIssues <;>
      simp only [calculateHealthScore] <;> exact clampQ_nonneg _
  · cases recentIssues <;>
      simp only [calculateHealthScore] <;> exact clampQ_le_hundred _

/-- C5: the decay factor is exactly 1.0 with no error ever, 0.0 under one
hour, 0.25 on [1,6) hours, 0.5 on [6,24), 0.75 on [24,72), 0.9 from 72
hours on, and 0.0 on every invalid input; the embedded function is total
(never throws) and its value always lies in [0, 1]. -/
theorem getErrorDecayFactor_matches_spec (age : ErrorAge) :
    getErrorDecayFactor age = decayFactorSpec age
      ∧ 0 ≤ getErrorDecayFactor age ∧ getErrorDecayFactor age ≤ 1 := by
  refine ⟨?_, ?_, ?_⟩
  · rcases age with _ | _ | _ | h
    · rfl
    · rfl
    · rfl
    · rcases lt_or_le h 0 with hc | h0
      · simp [getErrorDecayFactor, decayFactorSpec, hc]
      rcases lt_or_le h 1 with hc | h1
      · simp [getErrorDecayFactor, decayFactorSpec, hc]
      have hn0 : ¬ h < 0 := not_lt.2 h0
      have hn1 : ¬ h < 1 := not_lt.2 h1
      rcases lt_or_le h 6 with hc | h6
      · simp [getErrorDecayFactor, decayFactorSpec, hn0, hn1, hc, h1]
      have hn6 : ¬ h < 6 := not_lt.2 h6
      rcases lt_or_le h 24 with hc | h24
      · simp [getErrorDecayFactor, decayFactorSpec, hn0, hn1, hn6, hc, h6]
      have hn24 : ¬ h < 24 := not_lt.2 h24
      rcases lt_or_le h 72 with hc | h72
      · simp [getErrorDecayFactor, decayFactorSpec, hn0, hn1, hn6, hn24, hc,
          h24]
      have hn72 : ¬ h < 72 := not_lt.2 h72
      simp [getErrorDecayFactor, decayFactorSpec, hn0, hn1, hn6, hn24, hn72]
  · rcases age with _ | _ | _ | h <;> simp only [getErrorDecayFactor] <;>
      first
        | (split_ifs <;> norm_num)
        | norm_num
  · rcases age with _ | _ | _ | h <;> simp only [getErrorDecayFactor] <;>
      first
        | (split_ifs <;> norm_num)
        | norm_num

/-- C2: with a cached sequence (`last ≠ -1`) and `expected = last + 1`, a
fetched `seq > expected` with gap `seq - expected ≥ 3` increments
`sequenceJumps` by exactly 1 and appends the single Media-Sequence entry
"Sequence jumped from last to seq (gap: gap)"; gaps of 1 or 2 change
nothing; `seq < last` increments `sequenceResets` by exactly 1 and appends
the single Media-Sequence entry "Sequence reset from last to seq". -/
theorem sequenceChecks_jump_and_reset (now last seq : ℤ) (r : SeqResult)
    (h : last ≠ -1) :
    (last + 1 < seq → 3 ≤ seq - (last + 1) →
      sequenceChecks now last seq r
        = { r with
            sequenceJumps := r.sequenceJumps + 1
            totalErrors := r.totalErrors + 1
            streamErrors := r.streamErrors
              ++ [mediaSequenceError now (jumpDetails last seq)] })
    ∧ (last + 1 < seq → seq - (last + 1) ≤ 2 →
        sequenceChecks now last seq r = r)
    ∧ (seq < last →
        sequenceChecks now last seq r
          = { r with
              sequenceResets := r.sequenceResets + 1
              totalErrors := r.totalErrors + 1
              streamErrors := r.streamErrors
                ++ [mediaSequenceError now (resetDetails last seq)] }) := by
  refine ⟨?_, ?_, ?_⟩
  · intro hgt hgap
    unfold sequenceChecks seqResetCheck seqJumpCheck
    rw [if_pos h,
      if_pos (show seq > last + 1 ∧ seq - (last + 1) ≥ 3 from ⟨hgt, hgap⟩),
      if_neg (show ¬ seq < last by omega)]
  · intro hgt hgap
    unfold sequenceChecks seqResetCheck seqJumpCheck
    rw [if_pos h,
      if_neg (show ¬ (seq > last + 1 ∧ seq - (last + 1) ≥ 3) by omega),
      if_neg (show ¬ seq < last by omega)]
  · intro hlt
    unfold sequenceChecks seqResetCheck seqJumpCheck
    rw [if_pos h,
      if_neg (show ¬ (seq > last + 1 ∧ seq - (last + 1) ≥ 3) by omega),
      if_pos hlt]

/-- Witness for C2 at the spec's own scenarios: from cached sequence 100,
a poll of 105 (gap 4) records one jump entry, a poll of 102 (gap 1) is
silent, and a poll of 50 records one reset entry. -/
theorem sequenceChecks_jump_and_reset_witness :
    sequenceChecks 0 100 105 ⟨0, 0, 0, []⟩
        = ⟨1, 0, 1, [mediaSequenceError 0 (jumpDetails 100 105)]⟩
      ∧ sequenceChecks 0 100 102 ⟨0, 0, 0, []⟩ = ⟨0, 0, 0, []⟩
      ∧ sequenceChecks 0 100 50 ⟨0, 0, 0, []⟩
        = ⟨0, 1, 1, [mediaSequenceError 0 (resetDetails 100 50)]⟩ :=
  ⟨(sequenceChecks_jump_and_reset 0 100 105 ⟨0, 0, 0, []⟩ (by decide)).1
      (by decide) (by decide),
    (sequenceChecks_jump_and_reset 0 100 102 ⟨0, 0, 0, []⟩ (by decide)).2.1
      (by decide) (by decide),
    (sequenceChecks_jump_and_reset 0 100 50 ⟨0, 0, 0, []⟩ (by decide)).2.2
      (by decide)⟩

/-- C3 counterexample: two successive polls observing 100 then 103 have
`s2 - s1 = 3 ≥ 3`, yet the sequence checks append no ledger entry at all
(the code flags a jump only for `seq - (last + 1) ≥ 3`, i.e.
`s2 - s1 ≥ 4`), so the claim as stated fails at this input. -/
theorem successivePolls_gap3_counterexample :
    (3 : ℤ) ≤ 103 - 100
      ∧ sequenceChecks 0 100 103 ⟨0, 0, 0, []⟩ = ⟨0, 0, 0, []⟩ := by
  refine ⟨by norm_num, ?_⟩
  decide

/-- C3 amended: for two successive successful polls of the same stream
observing `s1 < s2` (with `s1` cached, so `s1 ≠ -1`), either
`s2 - s1 ≤ 3` and no ledger entry is produced, or `s2 - s1 ≥ 4` and one
Media-Sequence entry mentioning `s1` and `s2` is appended. -/
theorem successivePolls_amended (now s1 s2 : ℤ) (r : SeqResult)
    (h : s1 ≠ -1) (hlt : s1 < s2) :
    (s2 - s1 ≤ 3 → sequenceChecks now s1 s2 r = r)
    ∧ (4 ≤ s2 - s1 →
        sequenceChecks now s1 s2 r
          = { r with
              sequenceJumps := r.sequenceJumps + 1
              totalErrors := r.totalErrors + 1
              streamErrors := r.streamErrors
                ++ [mediaSequenceError now (jumpDetails s1 s2)] }) := by
  refine ⟨?_, ?_⟩
  · intro hle
    unfold sequenceChecks seqResetCheck seqJumpCheck
    rw [if_pos h,
      if_neg (show ¬ (s2 > s1 + 1 ∧ s2 - (s1 + 1) ≥ 3) by omega),
      if_neg (show ¬ s2 < s1 by omega)]
  · intro hge
    unfold sequenceChecks seqResetCheck seqJumpCheck
    rw [if_pos h,
      if_pos (show s2 > s1 + 1 ∧ s2 - (s1 + 1) ≥ 3 by omega),
      if_neg (show ¬ s2 < s1 by omega)]

/-- Witness for the amended C3: from 100 to 104 (`s2 - s1 = 4`) one jump
entry is appended. -/
theorem successivePolls_amended_witness :
    sequenceChecks 0 100 104 ⟨0, 0, 0, []⟩
      = ⟨1, 0, 1, [mediaSequenceError 0 (jumpDetails 100 104)]⟩ :=
  (successivePolls_amended 0 100 104 ⟨0, 0, 0, []⟩ (by decide) (by decide)).2
    (by decide)

/-- C4: when the fetched sequence equals the cached one,
`consecutiveStales` is incremented and `timeSinceLastUpdate` becomes
`now - lastPollTime`; exactly when that exceeds `staleThreshold` the
stream is marked stale ("stale" status, `isStale`, one Stale-Manifest
entry with the elapsed ms) and otherwise nothing else changes; when the
sequence differs, the freshness fields reset and the status is online. -/
theorem stalenessCheck_stale_and_fresh (now lastPollTime last seq : ℤ)
    (st : StaleState) :
    (seq = last → st.staleThreshold < now - lastPollTime →
      stalenessCheck now lastPollTime last seq st
        = { st with
            consecutiveStales := st.consecutiveStales + 1
            timeSinceLastUpdate := now - lastPollTime
            isStale := true
            status := "stale"
            totalErrors := st.totalErrors + 1
            streamErrors := st.streamErrors
              ++ [staleManifestError now
                   (staleDetails (now - lastPollTime))] })
    ∧ (seq = last → now - lastPollTime ≤ st.staleThreshold →
        stalenessCheck now lastPollTime last seq st
          = { st with
              consecutiveStales := st.consecutiveStales + 1
              timeSinceLastUpdate := now - lastPollTime })
    ∧ (seq ≠ last →
        stalenessCheck now lastPollTime last seq st
          = { st with
              isStale := false
              lastManifestUpdate := some now
              timeSinceLastUpdate := 0
              consecutiveStales := 0
              status := "online" }) := by
  refine ⟨?_, ?_, ?_⟩
  · intro h1 h2
    unfold stalenessCheck staleMark staleTouch
    rw [if_pos h1]
    dsimp only
    rw [if_pos (show st.staleThreshold < now - lastPollTime from h2)]
  · intro h1 h2
    unfold stalenessCheck staleMark staleTouch
    rw [if_pos h1]
    dsimp only
    rw [if_neg (not_lt.2 h2)]
  · intro h1
    unfold stalenessCheck
    rw [if_neg h1]

/-- Witness for C4 at the spec's stale scenario: an unchanged sequence 100
observed 7100 ms after the cached poll time, against the default 7000 ms
threshold, marks the stream stale with one Stale-Manifest entry; and a
changed sequence resets the freshness fields. -/
theorem stalenessCheck_stale_and_fresh_witness :
    stalenessCheck 7100 0 100 100 ⟨0, false, 0, 7000, none, "online", 0, []⟩
        = ⟨1, true, 7100, 7000, none, "stale", 1,
            [staleManifestError 7100 (staleDetails 7100)]⟩
      ∧ stalenessCheck 7100 0 100 101
          ⟨3, true, 7100, 7000, none, "stale", 1, []⟩
        = ⟨0, false, 0, 7000, some 7100, "online", 1, []⟩ :=
  ⟨(stalenessCheck_stale_and_fresh 7100 0 100 100
      ⟨0, false, 0, 7000, none, "online", 0, []⟩).1 (by decide) (by decide),
    (stalenessCheck_stale_and_fresh 7100 0 100 101
      ⟨3, true, 7100, 7000, none, "stale", 1, []⟩).2.2 (by decide)⟩

/-!
## C6: the window classifier agrees with its specification
-/

theorem windowJumpCond_eq (e : LedgerEntry) :
    windowJumpCond e
      = (decide (e.errorType = "SEQUENCE_JUMP")
          || detailsContain e "Sequence jumped") := by
  rcases e with ⟨d, ty, det⟩
  rcases det with _ | s
  · simp [windowJumpCond, detailsContain, strTruthy]
  · rcases eq_or_ne s "" with rfl | hs
    · have h1 : strIncludes "" "Sequence jumped" = false := rfl
      simp [windowJumpCond, detailsContain, strTruthy, h1]
    · simp [windowJumpCond, detailsContain, strTruthy, hs]

theorem windowResetCond_eq (e : LedgerEntry) :
    windowResetCond e
      = (decide (e.errorType = "SEQUENCE_RESET")
          || detailsContain e "reset") := by
  rcases e with ⟨d, ty, det⟩
  rcases det with _ | s
  · simp [windowResetCond, detailsContain, strTruthy]
  · rcases eq_or_ne s "" with rfl | hs
    · have h1 : strIncludes "" "reset" = false := rfl
      simp [windowResetCond, detailsContain, strTruthy, h1]
    · simp [windowResetCond, detailsContain, strTruthy, hs]

theorem windowStep_fold (l : List LedgerEntry) (acc : Recent) :
    l.foldl windowStep acc
      = ⟨acc.jumps + l.countP windowJumpCond,
          acc.resets + l.countP windowResetCond,
          acc.errors + l.length⟩ := by
  induction l generalizing acc with
  | nil => simp
  | cons e t ih =>
      rw [List.foldl_cons, ih]
      rcases hj : windowJumpCond e <;> rcases hr : windowResetCond e <;>
        simp [windowStep, List.countP_cons, hj, hr, Recent.mk.injEq] <;>
        omega

/-- C6: `recentIssues(streamId)` keeps exactly the ledger entries with a
parseable date at most 12 minutes old and counts `errors` for every such
entry, `jumps` for `errorType = "SEQUENCE_JUMP"` or details containing
"Sequence jumped", and `resets` for `errorType = "SEQUENCE_RESET"` or
details containing "reset", returning zeros on every failed lookup. -/
theorem calculateSlidingWindowMetrics_matches_spec (now : ℤ)
    (f : StreamFetch) :
    calculateSlidingWindowMetrics now f = slidingWindowSpec now f := by
  cases f with
  | found errs =>
      simp only [calculateSlidingWindowMetrics, slidingWindowSpec]
      rw [windowStep_fold, funext windowJumpCond_eq,
        funext windowResetCond_eq]
      simp
  | noId => rfl
  | lookupError => rfl
  | notFound => rfl
  | noErrors => rfl

/-- C7 counterexample: for audio stats with a codec, a recorded sample
rate of 0 (the probe's default) and no silence, the claim's score is 90
(10-point penalty for `sampleRate < 44100`) but the code scores 100: the
guard `audio.sampleRate && audio.sampleRate < 44100` skips the falsy 0. -/
theorem audioScore_sampleRateZero_counterexample :
    calculateAudioScore (some ⟨some "aac", some 0, false⟩) = 100
      ∧ audioScoreSpec (some ⟨some "aac", some 0, false⟩) = 90 := by
  refine ⟨?_, ?_⟩ <;> rfl

/-- C7 amended: the audio score starts at 100, returns 50 when the audio
stats block is absent, subtracts 20 when the codec is absent, subtracts 10
when the sample rate is present, nonzero and below 44100 — so the probe's
default of 0 incurs no penalty — subtracts 15 when silent, and the result
is clamped to (and always lies in) [0, 100]. -/
theorem calculateAudioScore_amended (audio : Option AudioStats) :
    calculateAudioScore audio = audioScoreAmendedSpec audio
      ∧ 0 ≤ calculateAudioScore audio ∧ calculateAudioScore audio ≤ 100 := by
  refine ⟨?_, ?_, ?_⟩
  · rcases audio with _ | ⟨c, sr, sil⟩
    · rfl
    · rcases sr with _ | v
      · simp [calculateAudioScore, audioScoreAmendedSpec, numTruthy]
      · simp only [calculateAudioScore, audioScoreAmendedSpec, numTruthy]
        rcases eq_or_ne v 0 with rfl | hv
        · simp
        · simp [hv]
  · rcases audio with _ | a
    · decide
    · simp only [calculateAudioScore]
      exact clampZ_nonneg _
  · rcases audio with _ | a
    · decide
    · simp only [calculateAudioScore]
      exact clampZ_le_hundred _

/-- C8 counterexample: for `r_frame_rate = "30/0"` the code stores
Infinity (`30/0 = Infinity` is truthy, so `|| 0` does not replace it),
not the numeric value 30 the claim asserts. -/
theorem parseFps_30_over_0_counterexample :
    parseFps (some "30/0") = JNum.posInf
      ∧ JNum.posInf ≠ JNum.fin 30 := by
  refine ⟨?_, by decide⟩
  simp +decide [parseFps, parseFloatJs, natOfDigits, splitSlash, jdiv,
    jsOrZero, jnumTruthy]

theorem splitSlash_no_slash (b : List Char) (hb : '/' ∉ b) :
    splitSlash b = [b] := by
  induction b with
  | nil => rfl
  | cons c t ih =>
      have hc : ¬ c = '/' := fun h => hb (by simp [h])
      have ht : '/' ∉ t := fun h => hb (List.mem_cons_of_mem _ h)
      simp [splitSlash, hc, ih ht]

theorem splitSlash_append (a b : List Char) (ha : '/' ∉ a) :
    splitSlash (a ++ '/' :: b) = a :: splitSlash b := by
  induction a with
  | nil => simp [splitSlash]
  | cons c t ih =>
      have hc : ¬ c = '/' := fun h => ha (by simp [h])
      have ht : '/' ∉ t := fun h => ha (List.mem_cons_of_mem _ h)
      simp [splitSlash, hc, ih ht]

/-- C8 amended: when the rate string splits on '/' into exactly two parts
`num` and `den`, the stored fps is the JavaScript division
`parseFloat(num) / parseFloat(den)` with only falsy results (NaN or 0)
replaced by 0 — so a zero denominator under a nonzero numerator stores
Infinity; the numeric-value-of-the-string fallback applies only when the
string does not split into exactly two parts. -/
theorem parseFps_two_parts (a b : List Char) (ha : '/' ∉ a)
    (hb : '/' ∉ b) :
    parseFps (some (String.mk (a ++ '/' :: b)))
      = jsOrZero (jdiv (parseFloatJs a) (parseFloatJs b)) := by
  have hne : String.mk (a ++ '/' :: b) ≠ "" := by
    intro h
    have hdata := congrArg String.data h
    simp at hdata
  simp only [parseFps]
  rw [if_neg hne]
  have hlist : (String.mk (a ++ '/' :: b)).toList = a ++ '/' :: b := rfl
  rw [hlist, splitSlash_append a b ha, splitSlash_no_slash b hb]

/-- Witness for the amended C8 at the source's own example
`"30000/1001"`. -/
theorem parseFps_two_parts_witness :
    parseFps (some (String.mk
        (['3', '0', '0', '0', '0'] ++ '/' :: ['1', '0', '0', '1'])))
      = jsOrZero (jdiv (parseFloatJs ['3', '0', '0', '0', '0'])
          (parseFloatJs ['1', '0', '0', '1'])) :=
  parseFps_two_parts ['3', '0', '0', '0', '0'] ['1', '0', '0', '1']
    (by decide) (by decide)

/-- C9: in every state of the ffmpeg queue reachable from the initial one
(no active task, empty queue) by submissions and completions, at most 4
tasks execute concurrently. -/
theorem runLimited_active_le_four (s : QueueState) (h : QReach s) :
    s.active ≤ 4 := by
  induction h with
  | init => decide
  | step hr hst ih => cases hst <;> dsimp only <;> omega

/-- Witness for C9: the state with two active tasks reached by two
immediate submissions respects the bound. -/
theorem runLimited_active_le_four_witness :
    QueueState.active ⟨2, []⟩ ≤ 4 :=
  runLimited_active_le_four ⟨2, []⟩
    (QReach.step
      (QReach.step QReach.init (QStep.submitRun ⟨0, []⟩ 7 (by decide)))
      (QStep.submitRun ⟨1, []⟩ 9 (by decide)))

/-- C10: when the first persistence after the playlist evaluation is
rejected with a version conflict, `checkStream` returns at once: no
metrics-history sample is attempted, the recent-window health fields are
not updated and no `stream:update` is emitted, even though the in-memory
poll state has advanced and segment analysis was dispatched — all of
which do happen when that save succeeds. -/
theorem checkStreamTail_versionConflict_skips (e : SaveOutcome) :
    checkStreamTail SaveOutcome.versionConflict e
        = ⟨true, true, false, false, false⟩
      ∧ checkStreamTail SaveOutcome.ok e = ⟨true, true, true, true, true⟩ :=
  ⟨rfl, rfl⟩

end HLSMonitor
